import Mathlib

/-!
Shallow embedding of the `light-auth` Express authentication package
(`src/setupAuth.js`, `src/modules/...`) and proofs about its claims.

Conventions used throughout:
* JavaScript `undefined`/`null` is modelled with `Option`; JS falsiness of an
  optional string is "absent or empty", of an optional number "absent or 0".
* Timestamps are naturals (milliseconds, as produced by `Date.now()`).
* A JS function that can throw is modelled with `Except String`; `.error`
  marks an exception escaping the modelled code.
* External collaborators (bcryptjs, jsonwebtoken, crypto, the Mongoose
  repository) are modelled by executable stand-ins that reproduce the
  behaviour the handlers rely on (documented at each definition).
-/

namespace LightAuth

/-- JS falsiness of an optional string value (`!s` in JS): absent, or `""`. -/
def strFalsy : Option String → Bool
  | none => true
  | some s => s.isEmpty

/-- JS falsiness of an optional numeric timestamp (`!e` in JS): absent, or `0`. -/
def natFalsy : Option Nat → Bool
  | none => true
  | some n => n == 0

/-- Model of node's `crypto.timingSafeEqual(a, b)`: throws when the two
buffers have different lengths, otherwise compares them (the timing behaviour
itself is not observable in this embedding; only the result and the throw
condition are modelled). -/
def timingSafeEqual (a b : String) : Except String Bool :=
  if a.length = b.length then .ok (a == b)
  else .error "Input buffers must have the same byte length"

/-- Embedding of `isOTPValid(storedOtp, expiry, providedOtp)` from
`src/modules/email/services/emailService.js` (lines 55-71), with the current
time `Date.now()` passed explicitly as `now`:
1. falsy check on all three inputs (`!storedOtp || !expiry || !providedOtp`);
2. expiry check `Date.now() > new Date(expiry).getTime()`;
3. length-guarded `crypto.timingSafeEqual` comparison (the `&&`
   short-circuit means `timingSafeEqual` is only reached on equal lengths). -/
def isOTPValid (storedOtp : Option String) (expiry : Option Nat)
    (providedOtp : Option String) (now : Nat) : Except String Bool :=
  if strFalsy storedOtp || natFalsy expiry || strFalsy providedOtp then .ok false
  else if now > expiry.getD 0 then .ok false
  else if (storedOtp.getD "").length = (providedOtp.getD "").length then
    timingSafeEqual (storedOtp.getD "") (providedOtp.getD "")
  else .ok false

/-- `isOTPValid` never reaches the throwing branch of `timingSafeEqual`. -/
theorem isOTPValid_isOk (s : Option String) (e : Option Nat) (p : Option String)
    (now : Nat) : ∃ b, isOTPValid s e p now = .ok b := by
  unfold isOTPValid
  split
  · exact ⟨false, rfl⟩
  · split
    · exact ⟨false, rfl⟩
    · split
      · exact ⟨(s.getD "") == (p.getD ""), by
          unfold timingSafeEqual
          simp_all⟩
      · exact ⟨false, rfl⟩

/-- C6: for every combination of stored code, expiry and supplied code —
including absent or empty values — `isOTPValid` never throws; it returns
`false` when any of the three inputs is empty/absent, returns `false` when
the current time is past the expiry, and its length-mismatch branch also
returns `false` rather than raising. -/
theorem isOTPValid_never_throws_C6 (s p : Option String) (e : Option Nat) (now : Nat) :
    (∃ b, isOTPValid s e p now = .ok b) ∧
    ((strFalsy s = true ∨ natFalsy e = true ∨ strFalsy p = true) →
      isOTPValid s e p now = .ok false) ∧
    (∀ ems : Nat, e = some ems → now > ems → isOTPValid s e p now = .ok false) ∧
    ((s.getD "").length ≠ (p.getD "").length → isOTPValid s e p now = .ok false) := by
  refine ⟨isOTPValid_isOk s e p now, ?_, ?_, ?_⟩
  · intro h
    have hcond : (strFalsy s || natFalsy e || strFalsy p) = true := by
      rcases h with h | h | h <;> simp [h]
    unfold isOTPValid
    simp [hcond]
  · intro ems he h
    subst he
    unfold isOTPValid
    split
    · rfl
    · rw [if_pos]
      simpa using h
  · intro h
    unfold isOTPValid
    by_cases h1 : (strFalsy s || natFalsy e || strFalsy p) = true
    · rw [if_pos h1]
    · rw [if_neg h1]
      by_cases h2 : now > e.getD 0
      · rw [if_pos h2]
      · rw [if_neg h2, if_neg h]

/-- Witness for `isOTPValid_never_throws_C6` at a concrete expired input. -/
theorem isOTPValid_never_throws_C6_witness :
    isOTPValid (some "123456") (some 5) (some "123456") 10 = .ok false :=
  (isOTPValid_never_throws_C6 (some "123456") (some "123456") (some 5) 10).2.2.1 5 rfl
    (by norm_num)

/-- C5 counterexample: the claim quantifies over *every* code `C`, but for the
empty stored/supplied code (and likewise for expiry `0`) `isOTPValid` returns
`false` even though the current time is at most the expiry, because the
falsy-input guard fires first. -/
theorem isOTPValid_C5_counterexample :
    (isOTPValid (some "") (some 100) (some "") 50 = .ok false ∧ 50 ≤ 100) ∧
    (isOTPValid (some "11") (some 0) (some "11") 0 = .ok false ∧ 0 ≤ 0) :=
  ⟨⟨rfl, by norm_num⟩, ⟨rfl, le_refl 0⟩⟩

/-- C5 (amended): for every *nonempty* code `C` and expiry `E`,
`isOTPValid C E C` returns true iff the current time is at most `E` and `E`
is not the falsy timestamp `0`; and for every supplied code `C' ≠ C`,
`isOTPValid C E C'` returns false regardless of `E`. -/
theorem isOTPValid_roundtrip_C5 (c : String) (e now : Nat) (hc : c ≠ "") :
    (isOTPValid (some c) (some e) (some c) now = .ok true ↔ (now ≤ e ∧ e ≠ 0)) ∧
    (∀ c' : String, c' ≠ c → isOTPValid (some c) (some e) (some c') now = .ok false) := by
  have hce : c.isEmpty = false := by
    cases hh : c.isEmpty
    · rfl
    · exact absurd ((String.isEmpty_iff c).mp hh) hc
  constructor
  · unfold isOTPValid strFalsy natFalsy timingSafeEqual
    by_cases he : e = 0
    · subst he
      simp [hce]
    · by_cases hnow : now > e
      · have hnle : ¬(now ≤ e) := by omega
        simp [hce, he, hnow, hnle]
      · simp [hce, he, hnow]
        omega
  · intro c' hc'
    have hcc : (c == c') = false := by
      simp only [beq_eq_false_iff_ne, ne_eq]
      exact fun h => hc' h.symm
    unfold isOTPValid timingSafeEqual
    by_cases h1 : (strFalsy (some c) || natFalsy (some e) || strFalsy (some c')) = true
    · rw [if_pos h1]
    · rw [if_neg h1]
      by_cases h2 : now > (some e : Option Nat).getD 0
      · rw [if_pos h2]
      · rw [if_neg h2]
        by_cases h3 : ((some c : Option String).getD "").length =
            ((some c' : Option String).getD "").length
        · rw [if_pos h3, if_pos h3]
          simp [hcc]
        · rw [if_neg h3]

/-- Witness for `isOTPValid_roundtrip_C5`: a concrete unexpired matching code
validates, and a mismatched supplied code does not. -/
theorem isOTPValid_roundtrip_C5_witness :
    isOTPValid (some "123456") (some 1000) (some "123456") 500 = .ok true ∧
    isOTPValid (some "123456") (some 1000) (some "999999") 500 = .ok false := by
  have h := isOTPValid_roundtrip_C5 "123456" 1000 500 (by decide)
  exact ⟨h.1.mpr ⟨by norm_num, by norm_num⟩, h.2 "999999" (by decide)⟩

/-! ### Identity data model and repository

The default Mongoose schema generated by `createUserModel`
(src/modules/utils/userModel.js lines 36-46): `email` is `unique`, `password`
stores the bcrypt digest, `verified` defaults to `false`, and the four OTP
fields have no default (they are absent, `none`, until set). -/

/-- One stored identity (`User` document). `uid` embeds the
repository-assigned `_id`. -/
structure User where
  uid : String
  email : String
  password : String
  role : String
  verified : Bool
  emailOtp : Option String
  emailOtpExpires : Option Nat
  resetOtp : Option String
  resetOtpExpires : Option Nat
deriving DecidableEq, Repr

/-- `UserModel.findOne({ email })`: the first stored user with the given
email (the schema's unique index makes at most one exist). -/
def findOne (repo : List User) (email : String) : Option User :=
  repo.find? (fun u => u.email == email)

/-- `user.save()` for a document previously fetched with
`findOne({ email })`: persists the mutated document. The schema declares
`email` `unique: true` and the handlers never change `email`, so persistence
is keyed by the email here. -/
def saveUser (repo : List User) (u : User) : List User :=
  repo.map (fun v => if v.email == u.email then u else v)

/-- Fresh repository-assigned id for `UserModel.create`. -/
def freshId (repo : List User) : String :=
  "id" ++ toString repo.length

/-! ### External collaborator models: bcryptjs and jsonwebtoken -/

/-- Model of `bcrypt.hash(password, 12)` (bcryptjs): an injective one-way
digest; the slow salted hashing itself is not observable in this embedding,
only that `bcryptCompare` recognises exactly the hashed password. -/
def bcryptHash (password : String) : String :=
  "bcrypt12" ++ password

/-- Model of `bcrypt.compare(password, digest)` (bcryptjs). -/
def bcryptCompare (password digest : String) : Bool :=
  bcryptHash password == digest

/-- Payload signed into a JWT. `loginRoute` signs `{ id: user._id,
role: user.role }`; `extra` holds any further claims present in a payload. -/
structure JwtPayload where
  id : String
  role : String
  extra : List (String × String) := []
deriving DecidableEq, Repr

/-- A token produced by `jwt.sign`: payload plus issued-at/expiry claims,
authenticated by the signing secret (the HMAC signature is modelled by
carrying the secret; `jwtVerify` accepts the token iff the secrets agree). -/
structure SignedToken where
  payload : JwtPayload
  iat : Nat
  exp : Nat
  secret : String
deriving DecidableEq, Repr

/-- Model of `jwt.sign(payload, secret, { expiresIn })` (jsonwebtoken),
`expiresIn` and `now` in the same time unit. -/
def jwtSign (payload : JwtPayload) (secret : String) (expiresIn : Nat)
    (now : Nat) : SignedToken :=
  { payload := payload, iat := now, exp := now + expiresIn, secret := secret }

/-- The two `jwt.verify` failures the middleware distinguishes. -/
inductive JwtError
  | TokenExpiredError
  | JsonWebTokenError
deriving DecidableEq, Repr

/-- Model of `jwt.verify(token, secret)` (jsonwebtoken): rejects a wrong
signature, and reports `TokenExpiredError` when the clock timestamp has
reached the embedded expiry (jsonwebtoken rejects when
`clockTimestamp >= payload.exp`). -/
def jwtVerify (t : SignedToken) (secret : String) (now : Nat) :
    Except JwtError JwtPayload :=
  if t.secret ≠ secret then .error .JsonWebTokenError
  else if now ≥ t.exp then .error .TokenExpiredError
  else .ok t.payload

/-! ### Access guard (src/unnamed/part_003, authMiddleware) -/

/-- Outcome of the `authenticate` middleware: `ok u` models `req.user = u`
followed by `next()`; `unauthorized msg` a 401 response with that error
message. -/
inductive AuthOutcome
  | ok (user : JwtPayload)
  | unauthorized (msg : String)
deriving DecidableEq, Repr

/-- Embedding of the JWT branch of `authenticate(useSession, jwtSecret)`
(authMiddleware lines 22-54), abstracting the `Authorization: Bearer` header
to an optional token (`none` covers a missing or malformed header, lines
24-31). On success `req.user = { id: decoded.id, role: decoded.role,
...decoded }`, which is the decoded payload itself. -/
def authenticateJwt (jwtSecret : String) (bearerToken : Option SignedToken)
    (now : Nat) : AuthOutcome :=
  match bearerToken with
  | none => .unauthorized "Unauthorized: Bearer token missing."
  | some t =>
    match jwtVerify t jwtSecret now with
    | .error .TokenExpiredError => .unauthorized "Unauthorized: Token expired."
    | .error .JsonWebTokenError => .unauthorized "Unauthorized: Invalid token."
    | .ok decoded =>
      if decoded.id.isEmpty || decoded.role.isEmpty then
        .unauthorized "Unauthorized: Token payload incomplete."
      else .ok decoded

/-! ### Lifecycle hooks (src/unnamed/part_002, hookUtils) -/

/-- A fire-and-forget lifecycle hook (`onRegister`, `onVerify`, `onLogout`):
`.error` models a thrown exception. -/
abbrev UnitHook := User → Except String Unit

/-- The `onLogin` hook: may throw (`.error`), return a non-object value
(`.ok none`), or return an extension-claims object (`.ok (some claims)`). -/
abbrev LoginHook := User → Except String (Option (List (String × String)))

/-- Embedding of `callHook(fn, context)` (hookUtils.js lines 7-15): invokes
the hook when present, swallowing and logging any thrown error. Returns
whether an error was caught; it never propagates an exception. -/
def callHook {α : Type} (fn : Option (α → Except String Unit)) (context : α) : Bool :=
  match fn with
  | none => false
  | some f =>
    match f context with
    | .ok _ => false
    | .error _ => true

/-! ### Input validation (src/modules/utils/validators.js) -/

/-- Characters admitted by the `[^\s@]` classes of the register email regexp
`/^[^\s@]+@[^\s@]+\.[^\s@]\x7b2,\x7d$/`: anything but whitespace and `@`. -/
def emailChar (c : Char) : Bool :=
  !(c = '@' || c = ' ' || c = '\t' || c = '\n' || c = '\r' ||
    c = Char.ofNat 11 || c = Char.ofNat 12)

/-- Splits a character list at every occurrence of `sep` (the separator is
dropped); structural-recursion counterpart of `String.splitOn`. -/
def splitAtChar (sep : Char) : List Char → List (List Char)
  | [] => [[]]
  | c :: rest =>
    let r := splitAtChar sep rest
    if c = sep then [] :: r
    else
      match r with
      | [] => [[c]]
      | h :: t => (c :: h) :: t

/-- Embedding of `validateEmail` (validators.js lines 41-44). The regexp
matches iff the string splits as `local@domain`: exactly one `@`, a nonempty
local part of `[^\s@]` characters, and the domain containing a dot with at
least one `[^\s@]` character before it and at least two after it. -/
def validateEmail (email : String) : Bool :=
  match splitAtChar '@' email.toList with
  | [loc, domain] =>
    !loc.isEmpty && loc.all emailChar && domain.all emailChar &&
    (List.range domain.length).any (fun i =>
      domain.getD i ' ' == '.' && decide (1 ≤ i) &&
      decide (i + 3 ≤ domain.length))
  | _ => false

/-- Password policy configuration (defaults from setupAuth.js / validators). -/
structure PasswordPolicy where
  minLength : Nat := 8
  requireUppercase : Bool := false
  requireLowercase : Bool := false
  requireNumbers : Bool := false
  requireSymbols : Bool := false
deriving DecidableEq, Repr

/-- The symbol class of `validatePassword`'s `requireSymbols` regexp
(validators.js line 29). -/
def passwordSymbols : List Char :=
  ['!', '@', '#', '$', '%', '^', '&', '*', '(', ')', '_', '+', '-', '=',
   '[', ']', Char.ofNat 123, Char.ofNat 125, ';', Char.ofNat 39, ':', '"',
   '\\', '|', ',', '.', '<', '>', '/', '?']

/-- Embedding of `validatePassword(policy)` applied to a password
(validators.js lines 12-33): returns `some errorMessage` on failure, `none`
when valid. A `none` input models a missing or non-string password field. -/
def validatePassword (policy : PasswordPolicy) (password : Option String) :
    Option String :=
  match password with
  | none => some "Password must be a string."
  | some p =>
    if p.length < policy.minLength then
      some "Password must be at least minLength characters long."
    else if policy.requireUppercase && !(p.toList.any Char.isUpper) then
      some "Password must contain at least one uppercase letter."
    else if policy.requireLowercase && !(p.toList.any Char.isLower) then
      some "Password must contain at least one lowercase letter."
    else if policy.requireNumbers && !(p.toList.any Char.isDigit) then
      some "Password must contain at least one number."
    else if policy.requireSymbols && !(p.toList.any (passwordSymbols.contains ·)) then
      some "Password must contain at least one symbol."
    else none

/-! ### Core auth routes (src/unnamed/part_004, authRoutes) -/

/-- Request body of `POST /register`. A missing or empty email collapses to
`""` (`!email || !validateEmail(email)` behaves identically); `password` and
`role` keep their absent case because the handler treats it specially. -/
structure RegisterBody where
  email : String
  password : Option String
  role : Option String
deriving DecidableEq, Repr

/-- Observable outcome of one register request: response status, resulting
repository, whether `bcrypt.hash` ran, whether the `onRegister` hook line was
reached, whether `callHook` caught a hook error, and the response message. -/
structure RegisterOutcome where
  status : Nat
  repo : List User
  hashCalled : Bool
  hookCalled : Bool
  hookErrorLogged : Bool
  message : String
deriving DecidableEq, Repr

/-- The identity document `UserModel.create({email, password: hashed, role})`
builds in the register handler: the schema defaults `verified` to `false`
and leaves the four OTP fields absent. -/
def createdUser (repo : List User) (body : RegisterBody) : User :=
  { uid := freshId repo, email := body.email,
    password := bcryptHash (body.password.getD ""),
    role := body.role.getD "user", verified := false, emailOtp := none,
    emailOtpExpires := none, resetOtp := none, resetOtpExpires := none }

/-- Embedding of the `POST /register` handler (authRoutes lines 13-55):
email format check, password policy check, role allow-list check, duplicate
check, then hash + create + `callHook(onRegister)` + 201. -/
def registerHandler (roles : List String) (policy : PasswordPolicy)
    (onRegister : Option UnitHook) (repo : List User) (body : RegisterBody) :
    RegisterOutcome :=
  if !(validateEmail body.email) then
    ⟨400, repo, false, false, false, "Invalid email format."⟩
  else
    match validatePassword policy body.password with
    | some msg => ⟨400, repo, false, false, false, msg⟩
    | none =>
      if !(roles.contains (body.role.getD "user")) then
        ⟨400, repo, false, false, false, "Invalid role."⟩
      else
        match findOne repo body.email with
        | some _ => ⟨409, repo, false, false, false, "User already exists."⟩
        | none =>
          let user := createdUser repo body
          let logged := callHook onRegister user
          ⟨201, repo ++ [user], true, true, logged, "Registration successful."⟩

/-- The `user` object of login/logout responses and of `req.session.user`:
base payload `{ _id, email, role }` plus the claims merged from the `onLogin`
hook result by `Object.assign`. -/
structure UserPayload where
  uid : String
  email : String
  role : String
  extra : List (String × String) := []
deriving DecidableEq, Repr

/-- Observable outcome of one login request. -/
structure LoginResponse where
  status : Nat
  token : Option SignedToken
  user : Option UserPayload
  sessionUser : Option UserPayload
  message : String
deriving DecidableEq, Repr

/-- Embedding of the `POST /login` handler (authRoutes lines 64-108):
missing-field check, lookup by email (401), `bcrypt.compare` (401),
`requireVerified` gate (403), `onLogin` hook (a throw is caught by the
route's try/catch and yields the 500 response), then either a session write
or `jwt.sign({ id: user._id, role: user.role }, jwtSecret, { expiresIn })`.
Note the signed payload does not include the hook's extension claims; only
the response/session `user` object does. -/
def loginHandler (repo : List User) (email password : String)
    (jwtSecret : String) (expiresIn : Nat) (useSession : Bool)
    (requireVerified : Bool) (onLogin : Option LoginHook) (now : Nat) :
    LoginResponse :=
  if email.isEmpty || password.isEmpty then
    ⟨400, none, none, none, "Email and password required."⟩
  else
    match findOne repo email with
    | none => ⟨401, none, none, none, "Invalid credentials."⟩
    | some user =>
      if !(bcryptCompare password user.password) then
        ⟨401, none, none, none, "Invalid credentials."⟩
      else if requireVerified && !user.verified then
        ⟨403, none, none, none, "Email not verified. Please verify before logging in."⟩
      else
        match (match onLogin with | none => Except.ok none | some f => f user) with
        | .error _ => ⟨500, none, none, none, "Login failed."⟩
        | .ok ext =>
          let userPayload : UserPayload :=
            { uid := user.uid, email := user.email, role := user.role,
              extra := ext.getD [] }
          if useSession then
            ⟨200, none, some userPayload, some userPayload, "Logged in via session."⟩
          else
            let token := jwtSign { id := user.uid, role := user.role }
              jwtSecret expiresIn now
            ⟨200, some token, some userPayload, none, "Logged in via JWT."⟩

/-- Observable outcome of one logout request. -/
structure LogoutResponse where
  status : Nat
  message : String
  user : Option UserPayload
deriving DecidableEq, Repr

/-- Embedding of the `POST /logout` handler (authRoutes lines 111-135), with
the outcome of `req.session.destroy` passed explicitly. All hooks here run
through `callHook`, so their errors are swallowed and logged. -/
def logoutHandler (useSession : Bool) (sessionUser : Option UserPayload)
    (destroyResult : Except String Unit)
    (onLogout : Option (Option UserPayload → Except String Unit)) :
    LogoutResponse :=
  if useSession then
    match destroyResult with
    | .error _ => ⟨500, "Failed to log out.", none⟩
    | .ok _ =>
      let _ := callHook onLogout sessionUser
      ⟨200, "Logged out successfully.", none⟩
  else
    let _ := callHook onLogout none
    ⟨200, "Client should clear JWT manually.", none⟩

/-! ### Email OTP routes (src/unnamed/part_001, emailRoutes) -/

/-- Boolean reading of `isOTPValid` as used in the route guards; by
`isOTPValid_isOk` the `.error` fallback is never taken. -/
def isOTPValidB (s : Option String) (e : Option Nat) (p : Option String)
    (now : Nat) : Bool :=
  match isOTPValid s e p now with
  | .ok b => b
  | .error _ => false

/-- Model of the `express-validator` chain `emailValidators.sendOtp`:
`body("email").isEmail()`. `isEmail` is modelled with the same shape test as
`validateEmail`; no claim depends on the difference between the two email
grammars. -/
def sendOtpValidator (email : String) : Bool :=
  validateEmail email

/-- Model of `emailValidators.verifyOtp(config)`: email shape plus the exact
OTP length check `isLength({ min: len, max: len })`. -/
def verifyOtpValidator (otpLen : Nat) (email otp : String) : Bool :=
  validateEmail email && otp.length == otpLen

/-- The symbol class of `emailValidators.resetPassword`'s `requireSymbols`
check (emailValidators.js line 99) — a smaller set than `passwordSymbols`. -/
def resetSymbols : List Char :=
  ['!', '@', '#', '$', '%', '^', '&', '*', '(', ')', ',', '.', '?', '"',
   ':', Char.ofNat 123, Char.ofNat 125, '|', '<', '>']

/-- The `newPassword` policy check of `emailValidators.resetPassword`
(emailValidators.js lines 79-103). -/
def resetNewPasswordOk (policy : PasswordPolicy) (p : String) : Bool :=
  decide (policy.minLength ≤ p.length) &&
  (!policy.requireUppercase || p.toList.any Char.isUpper) &&
  (!policy.requireLowercase || p.toList.any Char.isLower) &&
  (!policy.requireNumbers || p.toList.any Char.isDigit) &&
  (!policy.requireSymbols || p.toList.any (resetSymbols.contains ·))

/-- Model of `emailValidators.resetPassword(config)`: email shape, exact OTP
length, and the `newPassword` custom policy check. -/
def resetPasswordValidator (otpLen : Nat) (policy : PasswordPolicy)
    (email otp newPassword : String) : Bool :=
  validateEmail email && otp.length == otpLen &&
    resetNewPasswordOk policy newPassword

/-- Response status plus resulting repository of an email route. -/
structure EmailRouteOutcome where
  status : Nat
  repo : List User
deriving DecidableEq, Repr

/-- The document mutation of the send-verification-otp handler:
`user.emailOtp = otp; user.emailOtpExpires = expiry`. -/
def emailOtpAssigned (u : User) (otp : String) (expiry : Nat) : User :=
  { u with emailOtp := some otp, emailOtpExpires := some expiry }

/-- The document mutation of the send-forgot-otp handler:
`user.resetOtp = otp; user.resetOtpExpires = expiry`. -/
def resetOtpAssigned (u : User) (otp : String) (expiry : Nat) : User :=
  { u with resetOtp := some otp, resetOtpExpires := some expiry }

/-- The document mutation of the verify-email success path:
`user.verified = true; user.emailOtp = undefined;
user.emailOtpExpires = undefined`. -/
def verifiedUser (u : User) : User :=
  { u with verified := true, emailOtp := none, emailOtpExpires := none }

/-- The document mutation of the reset-password success path: rehash the new
password and clear the reset pair. -/
def resetUser (u : User) (newPassword : String) : User :=
  { u with password := bcryptHash newPassword, resetOtp := none,
           resetOtpExpires := none }

/-- Embedding of the `POST /send-verification-otp` handler (emailRoutes
lines 44-63). The generated OTP (`generateOTP`, crypto-random) is passed in
as `otp`; the expiry stored is `Date.now() + otpExpiryMinutes * 60000`. -/
def sendVerificationOtpHandler (repo : List User) (email otp : String)
    (otpExpiryMinutes : Nat) (now : Nat) : EmailRouteOutcome :=
  if !(sendOtpValidator email) then ⟨400, repo⟩
  else
    match findOne repo email with
    | none => ⟨404, repo⟩
    | some user =>
      ⟨200, saveUser repo (emailOtpAssigned user otp (now + otpExpiryMinutes * 60000))⟩

/-- Embedding of the `POST /send-forgot-otp` handler (emailRoutes lines
94-113), symmetric on the reset code pair. -/
def sendForgotOtpHandler (repo : List User) (email otp : String)
    (otpExpiryMinutes : Nat) (now : Nat) : EmailRouteOutcome :=
  if !(sendOtpValidator email) then ⟨400, repo⟩
  else
    match findOne repo email with
    | none => ⟨404, repo⟩
    | some user =>
      ⟨200, saveUser repo (resetOtpAssigned user otp (now + otpExpiryMinutes * 60000))⟩

/-- Embedding of the `POST /verify-email` handler (emailRoutes lines 66-88).
The first component is the response status, `.error` modelling the `onVerify`
exception escaping the handler (the handler body has no try/catch around the
direct `await config.hooks.onVerify(user)` call); the second component is the
final repository state (the save happens before the hook runs). -/
def verifyEmailHandler (repo : List User) (email otp : String) (otpLen : Nat)
    (onVerify : Option UnitHook) (now : Nat) : Except String Nat × List User :=
  if !(verifyOtpValidator otpLen email otp) then (.ok 400, repo)
  else
    match findOne repo email with
    | none => (.ok 400, repo)
    | some user =>
      if isOTPValidB user.emailOtp user.emailOtpExpires (some otp) now then
        let repo2 := saveUser repo (verifiedUser user)
        match (match onVerify with
               | none => Except.ok ()
               | some f => f (verifiedUser user)) with
        | .error e => (.error e, repo2)
        | .ok _ => (.ok 200, repo2)
      else (.ok 400, repo)

/-- Embedding of the `POST /reset-password` handler (emailRoutes lines
116-135): validator, lookup, OTP check, then rehash + clear the reset pair
in one save. No completion hook fires here. -/
def resetPasswordHandler (repo : List User) (email otp newPassword : String)
    (otpLen : Nat) (policy : PasswordPolicy) (now : Nat) : EmailRouteOutcome :=
  if !(resetPasswordValidator otpLen policy email otp newPassword) then ⟨400, repo⟩
  else
    match findOne repo email with
    | none => ⟨400, repo⟩
    | some user =>
      if isOTPValidB user.resetOtp user.resetOtpExpires (some otp) now then
        ⟨200, saveUser repo (resetUser user newPassword)⟩
      else ⟨400, repo⟩

/-! ### Helper lemmas -/

/-- A nonempty string is not `isEmpty`. -/
theorem isEmpty_eq_false_of_ne {s : String} (h : s ≠ "") : s.isEmpty = false := by
  cases hh : s.isEmpty
  · rfl
  · exact absurd ((String.isEmpty_iff s).mp hh) h

/-- A user found by `findOne` has the looked-up email. -/
theorem email_of_findOne {repo : List User} {e : String} {u : User}
    (h : findOne repo e = some u) : u.email = e := by
  have := List.find?_some h
  simpa using this

/-- A user found by `findOne` is in the repository. -/
theorem mem_of_findOne {repo : List User} {e : String} {u : User}
    (h : findOne repo e = some u) : u ∈ repo :=
  List.mem_of_find?_eq_some h

/-- After saving the updated document for the user `findOne` returned,
`findOne` returns the updated document. -/
theorem findOne_saveUser {repo : List User} {e : String} {u u2 : User}
    (h : findOne repo e = some u) (he : u2.email = u.email) :
    findOne (saveUser repo u2) e = some u2 := by
  have hue : u.email = e := email_of_findOne h
  induction repo with
  | nil => simp [findOne] at h
  | cons v tl ih =>
    unfold findOne saveUser at *
    by_cases hv : (v.email == e) = true
    · have hvu : v = u := by
        rw [List.find?_cons_of_pos (p := fun w : User => w.email == e) tl hv] at h
        exact Option.some.inj h
      have hv2 : (v.email == u2.email) = true := by
        simp [hvu, he]
      have hp : (u2.email == e) = true := by
        simp [he, hue]
      simp only [List.map_cons, hv2, if_true]
      exact List.find?_cons_of_pos (p := fun w : User => w.email == e) _ hp
    · have hvne : v.email ≠ e := by simpa using hv
      have hv2 : ¬((v.email == u2.email) = true) := by
        have h2e : u2.email = e := he.trans hue
        simp [h2e, hvne]
      rw [List.find?_cons_of_neg (p := fun w : User => w.email == e) tl hv] at h
      have hmap : List.map (fun w => if (w.email == u2.email) = true then u2 else w) (v :: tl) =
          v :: List.map (fun w => if (w.email == u2.email) = true then u2 else w) tl := by
        rw [List.map_cons, if_neg hv2]
      rw [hmap, List.find?_cons_of_neg (p := fun w : User => w.email == e) _ hv]
      exact ih h

/-- Appending a user with the looked-up email to a repository where the
lookup missed makes the lookup return that user. -/
theorem findOne_append {repo : List User} {e : String} {u : User}
    (h : findOne repo e = none) (hu : u.email = e) :
    findOne (repo ++ [u]) e = some u := by
  unfold findOne at *
  rw [List.find?_append, h]
  simp [List.find?, hu]

/-- Membership after `saveUser`: every stored user either was already there
or is the saved document. -/
theorem mem_saveUser {repo : List User} {u2 v : User}
    (h : v ∈ saveUser repo u2) : v ∈ repo ∨ v = u2 := by
  unfold saveUser at h
  obtain ⟨w, hw, hfw⟩ := List.mem_map.mp h
  by_cases hc : (w.email == u2.email) = true
  · right
    rw [if_pos hc] at hfw
    exact hfw.symm
  · left
    rw [if_neg hc] at hfw
    exact hfw ▸ hw

/-! ### Claims C4, C10, C7 -/

/-- C4: for every login request (with both fields submitted): an unknown
email yields 401 Invalid credentials; a known email with a password that does
not verify against the stored digest yields 401 regardless of the verified
flag; and a verifying password with `requireEmailVerified` configured against
an unverified identity yields 403 — in that order. -/
theorem loginHandler_error_order_C4 (repo : List User)
    (email password jwtSecret : String) (expiresIn : Nat)
    (useSession requireVerified : Bool) (onLogin : Option LoginHook) (now : Nat)
    (hemail : email ≠ "") (hpw : password ≠ "") :
    (findOne repo email = none →
      (loginHandler repo email password jwtSecret expiresIn useSession
        requireVerified onLogin now).status = 401) ∧
    (∀ u, findOne repo email = some u → bcryptCompare password u.password = false →
      (loginHandler repo email password jwtSecret expiresIn useSession
        requireVerified onLogin now).status = 401) ∧
    (∀ u, findOne repo email = some u → bcryptCompare password u.password = true →
      requireVerified = true → u.verified = false →
      (loginHandler repo email password jwtSecret expiresIn useSession
        requireVerified onLogin now).status = 403) := by
  have he : email.isEmpty = false := isEmpty_eq_false_of_ne hemail
  have hp : password.isEmpty = false := isEmpty_eq_false_of_ne hpw
  refine ⟨?_, ?_, ?_⟩
  · intro h
    simp [loginHandler, he, hp, h]
  · intro u hu hbc
    simp [loginHandler, he, hp, hu, hbc]
  · intro u hu hbc hrv hv
    simp [loginHandler, he, hp, hu, hbc, hrv, hv]

/-- Witness for `loginHandler_error_order_C4`: a concrete unknown email gets
401, and a concrete unverified identity with the right password gets 403 when
verification is required. -/
theorem loginHandler_error_order_C4_witness :
    (loginHandler [] "a@b.com" "longenough1" "secret" 3600 false true none 0).status = 401 ∧
    (loginHandler
      [{ uid := "id0", email := "a@b.com", password := bcryptHash "longenough1",
         role := "user", verified := false, emailOtp := none,
         emailOtpExpires := none, resetOtp := none, resetOtpExpires := none }]
      "a@b.com" "longenough1" "secret" 3600 false true none 0).status = 403 := by
  constructor
  · exact (loginHandler_error_order_C4 [] "a@b.com" "longenough1" "secret" 3600
      false true none 0 (by decide) (by decide)).1 rfl
  · exact (loginHandler_error_order_C4 _ "a@b.com" "longenough1" "secret" 3600
      false true none 0 (by decide) (by decide)).2.2 _ rfl (by decide) rfl rfl

/-- C10: a register request with the role field omitted creates (if it
creates at all) an identity with role `"user"`; a supplied role outside the
configured list fails with 400, with no hashing and no repository change. -/
theorem registerHandler_role_C10 (roles : List String) (policy : PasswordPolicy)
    (onRegister : Option UnitHook) (repo : List User) (body : RegisterBody) :
    (body.role = none →
      ∀ u ∈ (registerHandler roles policy onRegister repo body).repo,
        u ∉ repo → u.role = "user") ∧
    (∀ r, body.role = some r → roles.contains r = false →
      (registerHandler roles policy onRegister repo body).status = 400 ∧
      (registerHandler roles policy onRegister repo body).repo = repo ∧
      (registerHandler roles policy onRegister repo body).hashCalled = false ∧
      (registerHandler roles policy onRegister repo body).hookCalled = false) := by
  constructor
  · intro hrole u hu hnin
    unfold registerHandler at hu
    by_cases h1 : validateEmail body.email
    all_goals simp only [h1, Bool.not_true, Bool.not_false, Bool.false_eq_true,
      if_false, if_true, Bool.true_eq_false] at hu
    · cases h2 : validatePassword policy body.password with
      | some msg => rw [h2] at hu; exact absurd hu hnin
      | none =>
        rw [h2] at hu
        by_cases h3 : (roles.contains (body.role.getD "user")) = true
        · simp only [h3, Bool.not_true, Bool.false_eq_true, if_false] at hu
          cases h4 : findOne repo body.email with
          | some w => rw [h4] at hu; exact absurd hu hnin
          | none =>
            rw [h4] at hu
            simp only [List.mem_append, List.mem_singleton] at hu
            rcases hu with hu | hu
            · exact absurd hu hnin
            · rw [hu]
              simp [createdUser, hrole]
        · simp only [h3] at hu
          simp only [Bool.not_false, if_true] at hu
          exact absurd hu hnin
    · exact absurd hu hnin
  · intro r hrole hcont
    unfold registerHandler
    by_cases h1 : validateEmail body.email
    · cases h2 : validatePassword policy body.password with
      | some msg => simp [h1, h2]
      | none =>
        have hmem : r ∉ roles := by simpa using hcont
        simp [h1, h2, hrole, hmem]
    · simp [h1]

/-- Witness for `registerHandler_role_C10`: registering without a role field
yields a `"user"`-role identity, and a disallowed role is rejected. -/
theorem registerHandler_role_C10_witness :
    (∀ u ∈ (registerHandler ["user"] {} none []
        { email := "a@b.com", password := some "longenough1", role := none }).repo,
      u ∉ ([] : List User) → u.role = "user") ∧
    (registerHandler ["user"] {} none []
      { email := "a@b.com", password := some "longenough1", role := some "admin" }).status = 400 := by
  constructor
  · exact (registerHandler_role_C10 ["user"] {} none []
      { email := "a@b.com", password := some "longenough1", role := none }).1 rfl
  · exact ((registerHandler_role_C10 ["user"] {} none []
      { email := "a@b.com", password := some "longenough1", role := some "admin" }).2
        "admin" rfl rfl).1

/-- C7 counterexample: the claim quantifies over every id, role and ttl, but
with `ttl = 0` the token is already expired at the instant of issuance
(jsonwebtoken rejects at `clockTimestamp >= exp`), and with an empty id or
role the middleware rejects the payload as incomplete instead of resolving
the identity. -/
theorem token_roundtrip_C7_counterexample :
    (authenticateJwt "secretsecretsecr"
        (some (jwtSign { id := "id0", role := "user" } "secretsecretsecr" 0 100)) 100 =
      .unauthorized "Unauthorized: Token expired.") ∧
    (authenticateJwt "secretsecretsecr"
        (some (jwtSign { id := "", role := "user" } "secretsecretsecr" 3600 100)) 100 =
      .unauthorized "Unauthorized: Token payload incomplete.") := by
  constructor <;> rfl

/-- C7 (amended): for every nonempty id and role and every positive ttl,
authenticating with the token issued by login's
`jwt.sign({id, role}, secret, {expiresIn: ttl})` immediately after issuance
resolves the identity with that id, and at any time from `ttl` after
issuance onward it is rejected as expired. -/
theorem token_roundtrip_C7_amended (id role secret : String) (ttl now later : Nat)
    (hid : id ≠ "") (hrole : role ≠ "") (httl : 0 < ttl) :
    (authenticateJwt secret (some (jwtSign { id := id, role := role } secret ttl now)) now =
      .ok { id := id, role := role }) ∧
    (now + ttl ≤ later →
      authenticateJwt secret (some (jwtSign { id := id, role := role } secret ttl now)) later =
        .unauthorized "Unauthorized: Token expired.") := by
  have hie : id.isEmpty = false := isEmpty_eq_false_of_ne hid
  have hre : role.isEmpty = false := isEmpty_eq_false_of_ne hrole
  constructor
  · have hexp : ¬(now ≥ now + ttl) := by omega
    simp [authenticateJwt, jwtVerify, jwtSign, hexp, hie, hre]
  · intro hlater
    have hexp : later ≥ now + ttl := hlater
    simp [authenticateJwt, jwtVerify, jwtSign, hexp]

/-- Witness for `token_roundtrip_C7_amended` at a concrete identity and ttl. -/
theorem token_roundtrip_C7_amended_witness :
    (authenticateJwt "secretsecretsecr"
        (some (jwtSign { id := "id0", role := "user" } "secretsecretsecr" 3600 100)) 100 =
      .ok { id := "id0", role := "user" }) ∧
    (authenticateJwt "secretsecretsecr"
        (some (jwtSign { id := "id0", role := "user" } "secretsecretsecr" 3600 100)) 3700 =
      .unauthorized "Unauthorized: Token expired.") := by
  have h := token_roundtrip_C7_amended "id0" "user" "secretsecretsecr" 3600 100 3700
    (by decide) (by decide) (by norm_num)
  exact ⟨h.1, h.2 (by norm_num)⟩

/-! ### Claims C2, C3, C8 -/

/-- A concrete verified identity with a pending verification code, used by
the concrete login/verify scenarios below. -/
def demoUser : User :=
  { uid := "id0", email := "a@b.com", password := bcryptHash "longenough1",
    role := "user", verified := true, emailOtp := some "123456",
    emailOtpExpires := some 1000, resetOtp := none, resetOtpExpires := none }

/-- An `onLogin` hook returning the extension object `{ plan: "pro" }`. -/
def planHook : LoginHook := fun _ => .ok (some [("plan", "pro")])

/-- A concrete stateless login whose `onLogin` hook returns extension
claims. -/
def c2Login : LoginResponse :=
  loginHandler [demoUser] "a@b.com" "longenough1" "secretsecretsecr" 3600
    false false (some planHook) 42

/-- C2 (code bug): at a concrete successful stateless login whose `onLogin`
hook returns the extension object `{plan: "pro"}`, the response's user
object carries the claim but the signed token's payload is only
`{id, role}` — so verifying the token resolves an identity *without* the
extension claims, contradicting the spec, the package README ("add the
user's plan to the JWT payload") and the authenticate middleware's own
comment ("includes patch from onLogin if added"). -/
theorem loginToken_drops_extension_claims_C2 :
    c2Login.status = 200 ∧
    c2Login.user = some { uid := "id0", email := "a@b.com", role := "user",
                          extra := [("plan", "pro")] } ∧
    c2Login.token = some { payload := { id := "id0", role := "user" },
                           iat := 42, exp := 3642, secret := "secretsecretsecr" } ∧
    authenticateJwt "secretsecretsecr" c2Login.token 43 =
      .ok { id := "id0", role := "user" } :=
  ⟨rfl, rfl, rfl, rfl⟩

/-- C3 counterexample: at a concrete login request a throwing `onLogin` hook
turns the 200 success into the 500 error response, and at a concrete
verify-email request a throwing `onVerify` hook escapes the handler as an
uncaught exception instead of the 200 success — hook errors on these two
workflows do escalate. -/
theorem hook_error_escalates_C3_counterexample :
    (loginHandler [demoUser] "a@b.com" "longenough1" "secretsecretsecr" 3600
        false false (some (fun _ => .error "hook boom")) 42).status = 500 ∧
    (loginHandler [demoUser] "a@b.com" "longenough1" "secretsecretsecr" 3600
        false false none 42).status = 200 ∧
    (verifyEmailHandler [demoUser] "a@b.com" "123456" 6
        (some (fun _ => .error "hook boom")) 500).1 = .error "hook boom" ∧
    (verifyEmailHandler [demoUser] "a@b.com" "123456" 6 none 500).1 = .ok 200 :=
  ⟨rfl, rfl, rfl, rfl⟩

/-- C3 (amended): hook errors are isolated for register (`onRegister` runs
through `callHook`) and logout (`onLogout` runs through `callHook`): the
response equals the one with any other hook outcome; but a throwing
`onLogin` is caught by the login route's try/catch and turns a would-be 200
success into the 500 "Login failed." response, and a throwing `onVerify`
escapes the verify-email handler as an uncaught exception (after the
repository save has already happened). -/
theorem hook_error_isolation_C3_amended
    (roles : List String) (policy : PasswordPolicy) (repo : List User)
    (body : RegisterBody) (hk hk' : Option UnitHook) (useSession : Bool)
    (su : Option UserPayload) (d : Except String Unit)
    (lk lk' : Option (Option UserPayload → Except String Unit))
    (email password jwtSecret msg : String) (expiresIn : Nat)
    (useSession2 requireVerified : Bool) (now : Nat) (otp : String) (otpLen : Nat) :
    ((registerHandler roles policy hk repo body).status =
        (registerHandler roles policy hk' repo body).status ∧
      (registerHandler roles policy hk repo body).repo =
        (registerHandler roles policy hk' repo body).repo ∧
      (registerHandler roles policy hk repo body).message =
        (registerHandler roles policy hk' repo body).message) ∧
    (logoutHandler useSession su d lk = logoutHandler useSession su d lk') ∧
    ((loginHandler repo email password jwtSecret expiresIn useSession2
        requireVerified none now).status = 200 →
      (loginHandler repo email password jwtSecret expiresIn useSession2
        requireVerified (some (fun _ => .error msg)) now).status = 500) ∧
    ((verifyEmailHandler repo email otp otpLen none now).1 = .ok 200 →
      verifyEmailHandler repo email otp otpLen (some (fun _ => .error msg)) now =
        (.error msg, (verifyEmailHandler repo email otp otpLen none now).2)) := by
  refine ⟨?_, ?_, ?_, ?_⟩
  · by_cases h1 : validateEmail body.email = true
    · cases h2 : validatePassword policy body.password with
      | some m => simp [registerHandler, h1, h2]
      | none =>
        by_cases h3 : roles.contains (body.role.getD "user") = true
        · have hm : body.role.getD "user" ∈ roles := by simpa using h3
          cases h4 : findOne repo body.email with
          | some w => simp [registerHandler, h1, h2, hm, h4]
          | none => simp [registerHandler, h1, h2, hm, h4]
        · have hm : body.role.getD "user" ∉ roles := by simpa using h3
          simp [registerHandler, h1, h2, hm]
    · simp [registerHandler, h1]
  · rfl
  · intro h200
    by_cases hef : (email.isEmpty || password.isEmpty) = true
    · simp [loginHandler, hef] at h200
    · cases hf : findOne repo email with
      | none => simp [loginHandler, hef, hf] at h200
      | some u =>
        by_cases hbc : bcryptCompare password u.password = true
        · by_cases hrv : (requireVerified && !u.verified) = true
          · simp [loginHandler, hef, hf, hbc, hrv] at h200
          · simp [loginHandler, hef, hf, hbc, hrv]
        · simp [loginHandler, hef, hf, hbc] at h200
  · intro h200
    by_cases hval : verifyOtpValidator otpLen email otp = true
    · cases hf : findOne repo email with
      | none => simp [verifyEmailHandler, hval, hf] at h200
      | some u =>
        by_cases hv : isOTPValidB u.emailOtp u.emailOtpExpires (some otp) now = true
        · simp [verifyEmailHandler, hval, hf, hv]
        · simp [verifyEmailHandler, hval, hf, hv] at h200
    · simp [verifyEmailHandler, hval] at h200

/-- Witness for `hook_error_isolation_C3_amended` at the concrete C3
scenario. -/
theorem hook_error_isolation_C3_amended_witness :
    (loginHandler [demoUser] "a@b.com" "longenough1" "secretsecretsecr" 3600
        false false (some (fun _ => .error "hook boom")) 42).status = 500 ∧
    verifyEmailHandler [demoUser] "a@b.com" "123456" 6
        (some (fun _ => .error "hook boom")) 500 =
      (.error "hook boom",
        (verifyEmailHandler [demoUser] "a@b.com" "123456" 6 none 500).2) := by
  have h := hook_error_isolation_C3_amended [] {} [demoUser]
    { email := "", password := none, role := none } none none false none
    (.ok ()) none none "a@b.com" "longenough1" "secretsecretsecr" "hook boom"
    3600 false false 42 "123456" 6
  exact ⟨h.2.2.1 rfl, h.2.2.2 rfl⟩

/-- The register request body used by the C8 witness. -/
def c8Body : RegisterBody :=
  { email := "a@b.com", password := some "longenough1", role := none }

/-- C8: registering the same email twice — first request succeeding with
201, second request with a policy-passing password and an allowed role —
makes the second fail with 409 Conflict, leaving the repository (and thus
the identity created by the first request: its id, email, password hash,
role and verified flag) unchanged, with no hashing and no hook firing on
the conflicting attempt. -/
theorem registerHandler_conflict_C8 (roles : List String)
    (policy : PasswordPolicy) (hk1 hk2 : Option UnitHook) (repo : List User)
    (b1 b2 : RegisterBody) (hemail : b2.email = b1.email)
    (hfirst : (registerHandler roles policy hk1 repo b1).status = 201)
    (hpw2 : validatePassword policy b2.password = none)
    (hrole2 : roles.contains (b2.role.getD "user") = true) :
    (registerHandler roles policy hk1 repo b1).status = 201 ∧
    registerHandler roles policy hk2
        (registerHandler roles policy hk1 repo b1).repo b2 =
      { status := 409, repo := (registerHandler roles policy hk1 repo b1).repo,
        hashCalled := false, hookCalled := false, hookErrorLogged := false,
        message := "User already exists." } := by
  refine ⟨hfirst, ?_⟩
  by_cases h1 : validateEmail b1.email = true
  · cases h2 : validatePassword policy b1.password with
    | some m => simp [registerHandler, h1, h2] at hfirst
    | none =>
      by_cases h3 : roles.contains (b1.role.getD "user") = true
      · have hm3 : b1.role.getD "user" ∈ roles := by simpa using h3
        cases h4 : findOne repo b1.email with
        | some w => simp [registerHandler, h1, h2, hm3, h4] at hfirst
        | none =>
          have hrepo1 : (registerHandler roles policy hk1 repo b1).repo =
              repo ++ [createdUser repo b1] := by
            simp [registerHandler, h1, h2, hm3, h4]
          have hfind : findOne (repo ++ [createdUser repo b1]) b1.email =
              some (createdUser repo b1) := by
            refine findOne_append h4 ?_
            simp [createdUser]
          have hm2 : b2.role.getD "user" ∈ roles := by simpa using hrole2
          rw [hrepo1]
          simp [registerHandler, hemail, h1, hpw2, hm2, hfind]
      · have hm3 : b1.role.getD "user" ∉ roles := by simpa using h3
        simp [registerHandler, h1, h2, hm3] at hfirst
  · simp [registerHandler, h1] at hfirst

/-- Witness for `registerHandler_conflict_C8` at a concrete duplicated
registration. -/
theorem registerHandler_conflict_C8_witness :
    (registerHandler ["user"] {} none [] c8Body).status = 201 ∧
    registerHandler ["user"] {} none
        (registerHandler ["user"] {} none [] c8Body).repo c8Body =
      { status := 409, repo := (registerHandler ["user"] {} none [] c8Body).repo,
        hashCalled := false, hookCalled := false, hookErrorLogged := false,
        message := "User already exists." } :=
  registerHandler_conflict_C8 ["user"] {} none none [] c8Body c8Body rfl rfl rfl rfl

/-! ### Claims C1 and C9 -/

/-- C1: one-time codes are single-use. A successful verify-email redemption
leaves the stored user with both the verification code and its expiry
cleared in the single `user.save()`, and a second attempt with the same code
gets the 400 Invalid-or-expired outcome without touching the repository; the
same holds for reset-password and the reset pair. -/
theorem no_double_redemption_C1 (repo repoV repoR : List User)
    (email otp npw : String) (otpLen : Nat) (hk : Option UnitHook)
    (policy : PasswordPolicy) (now now2 : Nat) :
    (verifyEmailHandler repo email otp otpLen hk now = (.ok 200, repoV) →
      (∃ u2, findOne repoV email = some u2 ∧ u2.emailOtp = none ∧
        u2.emailOtpExpires = none) ∧
      verifyEmailHandler repoV email otp otpLen hk now2 = (.ok 400, repoV)) ∧
    (resetPasswordHandler repo email otp npw otpLen policy now = ⟨200, repoR⟩ →
      (∃ u2, findOne repoR email = some u2 ∧ u2.resetOtp = none ∧
        u2.resetOtpExpires = none) ∧
      resetPasswordHandler repoR email otp npw otpLen policy now2 = ⟨400, repoR⟩) := by
  constructor
  · intro h
    by_cases hval : verifyOtpValidator otpLen email otp = true
    · cases hf : findOne repo email with
      | none => simp [verifyEmailHandler, hval, hf] at h
      | some u =>
        by_cases hv : isOTPValidB u.emailOtp u.emailOtpExpires (some otp) now = true
        · cases hhk : (match hk with
                       | none => Except.ok ()
                       | some f => f (verifiedUser u)) with
          | error e => simp [verifyEmailHandler, hval, hf, hv, hhk] at h
          | ok x =>
            have hrv : saveUser repo (verifiedUser u) = repoV := by
              have h2 := h
              simp [verifyEmailHandler, hval, hf, hv, hhk] at h2
              exact h2
            have hfind2 : findOne repoV email = some (verifiedUser u) := by
              rw [← hrv]
              exact findOne_saveUser hf rfl
            refine ⟨⟨verifiedUser u, hfind2, rfl, rfl⟩, ?_⟩
            simp [verifyEmailHandler, hval, hfind2, isOTPValidB, isOTPValid,
              strFalsy, verifiedUser]
        · simp [verifyEmailHandler, hval, hf, hv] at h
    · simp [verifyEmailHandler, hval] at h
  · intro h
    by_cases hval : resetPasswordValidator otpLen policy email otp npw = true
    · cases hf : findOne repo email with
      | none => simp [resetPasswordHandler, hval, hf] at h
      | some u =>
        by_cases hv : isOTPValidB u.resetOtp u.resetOtpExpires (some otp) now = true
        · have hrv : saveUser repo (resetUser u npw) = repoR := by
            have h2 := h
            simp [resetPasswordHandler, hval, hf, hv] at h2
            exact h2
          have hfind2 : findOne repoR email = some (resetUser u npw) := by
            rw [← hrv]
            exact findOne_saveUser hf rfl
          refine ⟨⟨resetUser u npw, hfind2, rfl, rfl⟩, ?_⟩
          simp [resetPasswordHandler, hval, hfind2, isOTPValidB, isOTPValid,
            strFalsy, resetUser]
        · simp [resetPasswordHandler, hval, hf, hv] at h
    · simp [resetPasswordHandler, hval] at h

/-- Witness for `no_double_redemption_C1` at a concrete redeemed pair of
codes. -/
theorem no_double_redemption_C1_witness :
    ((∃ u2, findOne (verifyEmailHandler [demoUser] "a@b.com" "123456" 6 none 500).2
        "a@b.com" = some u2 ∧ u2.emailOtp = none ∧ u2.emailOtpExpires = none) ∧
      verifyEmailHandler (verifyEmailHandler [demoUser] "a@b.com" "123456" 6 none 500).2
        "a@b.com" "123456" 6 none 600 =
        (.ok 400, (verifyEmailHandler [demoUser] "a@b.com" "123456" 6 none 500).2)) :=
  (no_double_redemption_C1 [demoUser]
    (verifyEmailHandler [demoUser] "a@b.com" "123456" 6 none 500).2 []
    "a@b.com" "123456" "x" 6 none {} 500 600).1 rfl

/-- The invariant C9 claims of every identity: a one-time code field is set
iff its expiry field is set, for both the verification and the reset pair. -/
def codePairOk (u : User) : Prop :=
  (u.emailOtp = none ↔ u.emailOtpExpires = none) ∧
  (u.resetOtp = none ↔ u.resetOtpExpires = none)

/-- The register handler leaves the repository unchanged or appends the
created identity. -/
theorem registerHandler_repo_cases (roles : List String)
    (policy : PasswordPolicy) (hk : Option UnitHook) (repo : List User)
    (body : RegisterBody) :
    (registerHandler roles policy hk repo body).repo = repo ∨
    (registerHandler roles policy hk repo body).repo =
      repo ++ [createdUser repo body] := by
  unfold registerHandler
  split
  · left; rfl
  · split
    · left; rfl
    · split
      · left; rfl
      · split
        · left; rfl
        · right; rfl

/-- The send-verification-otp handler leaves the repository unchanged or
saves the found user with the new code/expiry pair. -/
theorem sendVerificationOtpHandler_repo_cases (repo : List User)
    (email otp : String) (m now : Nat) :
    (sendVerificationOtpHandler repo email otp m now).repo = repo ∨
    (∃ u, findOne repo email = some u ∧
      (sendVerificationOtpHandler repo email otp m now).repo =
        saveUser repo (emailOtpAssigned u otp (now + m * 60000))) := by
  unfold sendVerificationOtpHandler
  split
  · left; rfl
  · split
    · left; rfl
    · next u heq => exact Or.inr ⟨u, heq, rfl⟩

/-- The send-forgot-otp handler leaves the repository unchanged or saves the
found user with the new reset code/expiry pair. -/
theorem sendForgotOtpHandler_repo_cases (repo : List User)
    (email otp : String) (m now : Nat) :
    (sendForgotOtpHandler repo email otp m now).repo = repo ∨
    (∃ u, findOne repo email = some u ∧
      (sendForgotOtpHandler repo email otp m now).repo =
        saveUser repo (resetOtpAssigned u otp (now + m * 60000))) := by
  unfold sendForgotOtpHandler
  split
  · left; rfl
  · split
    · left; rfl
    · next u heq => exact Or.inr ⟨u, heq, rfl⟩

/-- The verify-email handler leaves the repository unchanged or saves the
found user verified with the pair cleared. -/
theorem verifyEmailHandler_repo_cases (repo : List User) (email otp : String)
    (otpLen : Nat) (hk : Option UnitHook) (now : Nat) :
    (verifyEmailHandler repo email otp otpLen hk now).2 = repo ∨
    (∃ u, findOne repo email = some u ∧
      (verifyEmailHandler repo email otp otpLen hk now).2 =
        saveUser repo (verifiedUser u)) := by
  unfold verifyEmailHandler
  split
  · left; rfl
  · split
    · left; rfl
    · next u heq =>
      split
      · split
        · exact Or.inr ⟨u, heq, rfl⟩
        · exact Or.inr ⟨u, heq, rfl⟩
      · left; rfl

/-- The reset-password handler leaves the repository unchanged or saves the
found user with the rehashed password and the pair cleared. -/
theorem resetPasswordHandler_repo_cases (repo : List User)
    (email otp npw : String) (otpLen : Nat) (policy : PasswordPolicy)
    (now : Nat) :
    (resetPasswordHandler repo email otp npw otpLen policy now).repo = repo ∨
    (∃ u, findOne repo email = some u ∧
      (resetPasswordHandler repo email otp npw otpLen policy now).repo =
        saveUser repo (resetUser u npw)) := by
  unfold resetPasswordHandler
  split
  · left; rfl
  · split
    · left; rfl
    · next u heq =>
      split
      · exact Or.inr ⟨u, heq, rfl⟩
      · left; rfl

/-- C9: every workflow operation that can touch the repository — register,
send-verification-otp, send-forgot-otp, verify-email, reset-password —
preserves the code/expiry pairing invariant: a code field is set iff its
expiry field is set, and neither is ever persisted without the other. -/
theorem code_expiry_pairing_C9 (repo : List User)
    (h : ∀ u ∈ repo, codePairOk u) (roles : List String)
    (policy : PasswordPolicy) (hk : Option UnitHook) (body : RegisterBody)
    (email otp npw : String) (expMin otpLen now : Nat)
    (vhk : Option UnitHook) :
    (∀ u ∈ (registerHandler roles policy hk repo body).repo, codePairOk u) ∧
    (∀ u ∈ (sendVerificationOtpHandler repo email otp expMin now).repo, codePairOk u) ∧
    (∀ u ∈ (sendForgotOtpHandler repo email otp expMin now).repo, codePairOk u) ∧
    (∀ u ∈ (verifyEmailHandler repo email otp otpLen vhk now).2, codePairOk u) ∧
    (∀ u ∈ (resetPasswordHandler repo email otp npw otpLen policy now).repo, codePairOk u) := by
  refine ⟨?_, ?_, ?_, ?_, ?_⟩
  · intro u hu
    rcases registerHandler_repo_cases roles policy hk repo body with hc | hc
    · rw [hc] at hu
      exact h u hu
    · rw [hc] at hu
      rcases List.mem_append.mp hu with hm | hm
      · exact h u hm
      · rw [List.mem_singleton.mp hm]
        simp [codePairOk, createdUser]
  · intro u hu
    rcases sendVerificationOtpHandler_repo_cases repo email otp expMin now with
      hc | ⟨w, hw, hc⟩
    · rw [hc] at hu
      exact h u hu
    · rw [hc] at hu
      rcases mem_saveUser hu with hm | hm
      · exact h u hm
      · rw [hm]
        have hw2 := h w (mem_of_findOne hw)
        exact ⟨by simp [emailOtpAssigned], by
          simpa [emailOtpAssigned] using hw2.2⟩
  · intro u hu
    rcases sendForgotOtpHandler_repo_cases repo email otp expMin now with
      hc | ⟨w, hw, hc⟩
    · rw [hc] at hu
      exact h u hu
    · rw [hc] at hu
      rcases mem_saveUser hu with hm | hm
      · exact h u hm
      · rw [hm]
        have hw2 := h w (mem_of_findOne hw)
        exact ⟨by simpa [resetOtpAssigned] using hw2.1, by
          simp [resetOtpAssigned]⟩
  · intro u hu
    rcases verifyEmailHandler_repo_cases repo email otp otpLen vhk now with
      hc | ⟨w, hw, hc⟩
    · rw [hc] at hu
      exact h u hu
    · rw [hc] at hu
      rcases mem_saveUser hu with hm | hm
      · exact h u hm
      · rw [hm]
        have hw2 := h w (mem_of_findOne hw)
        exact ⟨by simp [verifiedUser], by
          simpa [verifiedUser] using hw2.2⟩
  · intro u hu
    rcases resetPasswordHandler_repo_cases repo email otp npw otpLen policy now with
      hc | ⟨w, hw, hc⟩
    · rw [hc] at hu
      exact h u hu
    · rw [hc] at hu
      rcases mem_saveUser hu with hm | hm
      · exact h u hm
      · rw [hm]
        have hw2 := h w (mem_of_findOne hw)
        exact ⟨by simpa [resetUser] using hw2.1, by simp [resetUser]⟩

/-- Witness for `code_expiry_pairing_C9`: the single user stored after a
concrete send-verification-otp operation on a one-user repository satisfies
the pairing invariant. -/
theorem code_expiry_pairing_C9_witness :
    codePairOk (emailOtpAssigned demoUser "999999" 300000) := by
  have h := code_expiry_pairing_C9 [demoUser]
    (by
      intro u hu
      rw [List.mem_singleton.mp hu]
      exact ⟨by simp [demoUser], by simp [demoUser]⟩)
    ["user"] {} none { email := "", password := none, role := none }
    "a@b.com" "999999" "x" 5 6 0 none
  exact h.2.1 (emailOtpAssigned demoUser "999999" 300000)
    (show emailOtpAssigned demoUser "999999" 300000 ∈
        [emailOtpAssigned demoUser "999999" 300000] from
      List.mem_singleton.mpr rfl)

end LightAuth
